import Mathlib

/-!
Shallow embedding of `lib/storage/src/content_manager/collection_meta_ops.rs`:
the command schema for cluster-wide collection metadata operations
(create/update/delete collections, alias batches, shard transfers, replica
state changes).  Rust structs become Lean structures, Rust enums become
inductives, and `&mut self` methods become state-passing functions returning
the updated value (paired with the result where the method returns one).
Types imported from sibling crates of the repository (`collection`,
`segment`, the shard-distribution module) are not part of the given source
file; they are modelled from the spec, minimally but concretely, so that all
definitions stay executable.
-/

namespace QdrantMeta

/-- Modelled from the spec: `CollectionId` is a string identifier
(`collection::shards::CollectionId`, external to the given source file). -/
abbrev CollectionId := String

/-- Modelled from the spec: numeric identifier scoping a shard within a
collection (`collection::shards::shard::ShardId`, a `u32`). -/
abbrev ShardId := Nat

/-- Modelled from the spec: numeric identifier of a cluster node
(`collection::shards::shard::PeerId`, a `u64`). -/
abbrev PeerId := Nat

/-- Modelled from the spec: closed set of replica lifecycle states
(`collection::shards::replica_set::ReplicaState`); the spec names
Initializing, Active, Dead, Listener. -/
inductive ReplicaState where
  | Initializing
  | Active
  | Dead
  | Listener
  deriving DecidableEq, Repr

/-- Modelled from the spec: a replica-topology change entry
(`collection::shards::replica_set::Change`): removal of one replica of a
shard from a peer. -/
inductive Change where
  | Remove (shard : ShardId) (peer : PeerId)
  deriving DecidableEq, Repr

/-- Modelled from the spec: an externally computed initial shard-to-peer
placement for a new collection
(`crate::content_manager::shard_distribution::ShardDistributionProposal`). -/
structure ShardDistributionProposal where
  distribution : List (ShardId × List PeerId)
  deriving DecidableEq, Repr

/-- Modelled from the spec: distance metric of a vector space (part of the
external vectors configuration). -/
inductive Distance where
  | Cosine
  | Euclid
  | Dot
  deriving DecidableEq, Repr

/-- Modelled from the spec: vector data configuration
(`collection::operations::types::VectorsConfig`), reduced to the
single-vector case: dimensionality plus distance metric. -/
structure VectorsConfig where
  size : Nat
  distance : Distance
  deriving DecidableEq, Repr

/-- Modelled from the spec: diff of custom HNSW index parameters
(`collection::operations::config_diff::HnswConfigDiff`). -/
structure HnswConfigDiff where
  m : Option Nat
  ef_construct : Option Nat
  deriving DecidableEq, Repr

/-- Modelled from the spec: diff of custom WAL parameters
(`collection::operations::config_diff::WalConfigDiff`). -/
structure WalConfigDiff where
  wal_capacity_mb : Option Nat
  wal_segments_ahead : Option Nat
  deriving DecidableEq, Repr

/-- Modelled from the spec: diff of custom optimizer parameters
(`collection::operations::config_diff::OptimizersConfigDiff`). -/
structure OptimizersConfigDiff where
  deleted_threshold : Option Nat
  max_segment_size : Option Nat
  deriving DecidableEq, Repr

/-- Modelled from the spec: diff of collection base parameters
(`collection::operations::config_diff::CollectionParamsDiff`). -/
structure CollectionParamsDiff where
  replication_factor : Option Nat
  write_consistency_factor : Option Nat
  deriving DecidableEq, Repr

/-- Modelled from the spec: quantization parameters
(`segment::types::QuantizationConfig`). -/
structure QuantizationConfig where
  quantization_type : String
  always_ram : Option Bool
  deriving DecidableEq, Repr

/-- Modelled from the spec: a shard-movement job key. The spec describes a
composite key of (collection, shard, source peer, destination peer); the
collection component is carried by the enclosing
`TransferShard(CollectionId, _)` operation variant, so the key itself holds
the shard and the two peers
(`collection::shards::transfer::shard_transfer::ShardTransferKey`). -/
structure ShardTransferKey where
  shard_id : ShardId
  from_peer : PeerId
  to_peer : PeerId
  deriving DecidableEq, Repr

/-- Modelled from the spec: the key plus transfer metadata (sync mode)
(`collection::shards::transfer::shard_transfer::ShardTransfer`). -/
structure ShardTransfer where
  shard_id : ShardId
  from_peer : PeerId
  to_peer : PeerId
  sync : Bool
  deriving DecidableEq, Repr

/-- Rust `CreateAlias`: create an alternative name for a collection. -/
structure CreateAlias where
  collection_name : String
  alias_name : String
  deriving DecidableEq, Repr

/-- Rust `CreateAliasOperation`: OpenAPI wrapper around `CreateAlias`. -/
structure CreateAliasOperation where
  create_alias : CreateAlias
  deriving DecidableEq, Repr

/-- Rust `DeleteAlias`: delete alias if exists. -/
structure DeleteAlias where
  alias_name : String
  deriving DecidableEq, Repr

/-- Rust `DeleteAliasOperation`: OpenAPI wrapper around `DeleteAlias`. -/
structure DeleteAliasOperation where
  delete_alias : DeleteAlias
  deriving DecidableEq, Repr

/-- Rust `RenameAlias`: change alias to a new one. -/
structure RenameAlias where
  old_alias_name : String
  new_alias_name : String
  deriving DecidableEq, Repr

/-- Rust `RenameAliasOperation`: OpenAPI wrapper around `RenameAlias`. -/
structure RenameAliasOperation where
  rename_alias : RenameAlias
  deriving DecidableEq, Repr

/-- Rust `AliasOperations`: group of all possible alias operations; serialized
`untagged`, i.e. without an explicit discriminant. -/
inductive AliasOperations where
  | CreateAlias (op : CreateAliasOperation)
  | DeleteAlias (op : DeleteAliasOperation)
  | RenameAlias (op : RenameAliasOperation)
  deriving DecidableEq, Repr

/-- Rust `InitFrom`: other collection to copy data from. -/
structure InitFrom where
  collection : CollectionId
  deriving DecidableEq, Repr

/-- Rust `CreateCollection`: parameters for creating a new collection. -/
structure CreateCollection where
  vectors : VectorsConfig
  shard_number : Option Nat
  replication_factor : Option Nat
  write_consistency_factor : Option Nat
  on_disk_payload : Option Bool
  hnsw_config : Option HnswConfigDiff
  wal_config : Option WalConfigDiff
  optimizers_config : Option OptimizersConfigDiff
  init_from : Option InitFrom
  quantization_config : Option QuantizationConfig
  deriving DecidableEq, Repr

/-- Rust `CreateCollectionOperation`: the creation parameters plus the deferred
(private) `distribution` slot. -/
structure CreateCollectionOperation where
  collection_name : String
  create_collection : CreateCollection
  distribution : Option ShardDistributionProposal
  deriving DecidableEq, Repr

/-- Rust `CreateCollectionOperation::new`: constructs the operation with an empty
distribution slot. -/
def CreateCollectionOperation.new (collection_name : String)
    (create_collection : CreateCollection) : CreateCollectionOperation :=
  { collection_name := collection_name
    create_collection := create_collection
    distribution := none }

/-- Rust `CreateCollectionOperation::is_distribution_set`. -/
def CreateCollectionOperation.is_distribution_set
    (self : CreateCollectionOperation) : Bool :=
  self.distribution.isSome

/-- Rust `CreateCollectionOperation::take_distribution`: `Option::take` returns
the stored value and leaves `None`; state-passing rendering returns the
taken value together with the updated operation. -/
def CreateCollectionOperation.take_distribution
    (self : CreateCollectionOperation) :
    Option ShardDistributionProposal × CreateCollectionOperation :=
  (self.distribution, { self with distribution := none })

/-- Rust `CreateCollectionOperation::set_distribution`: unconditionally stores
`Some(distribution)`. -/
def CreateCollectionOperation.set_distribution
    (self : CreateCollectionOperation)
    (distribution : ShardDistributionProposal) : CreateCollectionOperation :=
  { self with distribution := some distribution }

/-- Rust `UpdateCollection`: parameter diffs for updating a collection. -/
structure UpdateCollection where
  optimizers_config : Option OptimizersConfigDiff
  params : Option CollectionParamsDiff
  deriving DecidableEq, Repr

/-- Rust `UpdateCollectionOperation`: the update diffs plus the deferred
(private) `shard_replica_changes` slot. -/
structure UpdateCollectionOperation where
  collection_name : String
  update_collection : UpdateCollection
  shard_replica_changes : Option (List Change)
  deriving DecidableEq, Repr

/-- Rust `UpdateCollectionOperation::new_empty`. -/
def UpdateCollectionOperation.new_empty (collection_name : String) :
    UpdateCollectionOperation :=
  { collection_name := collection_name
    update_collection := { optimizers_config := none, params := none }
    shard_replica_changes := none }

/-- Rust `UpdateCollectionOperation::new`. -/
def UpdateCollectionOperation.new (collection_name : String)
    (update_collection : UpdateCollection) : UpdateCollectionOperation :=
  { collection_name := collection_name
    update_collection := update_collection
    shard_replica_changes := none }

/-- Rust `UpdateCollectionOperation::have_replica_changes`. -/
def UpdateCollectionOperation.have_replica_changes
    (self : UpdateCollectionOperation) : Bool :=
  (self.shard_replica_changes.map (fun changes => !changes.isEmpty)).getD false

/-- Rust `UpdateCollectionOperation::take_shard_replica_changes`. -/
def UpdateCollectionOperation.take_shard_replica_changes
    (self : UpdateCollectionOperation) :
    Option (List Change) × UpdateCollectionOperation :=
  (self.shard_replica_changes, { self with shard_replica_changes := none })

/-- Rust `UpdateCollectionOperation::set_shard_replica_changes`: normalizes an
empty list to `None`. -/
def UpdateCollectionOperation.set_shard_replica_changes
    (self : UpdateCollectionOperation) (changes : List Change) :
    UpdateCollectionOperation :=
  if changes.isEmpty then
    { self with shard_replica_changes := none }
  else
    { self with shard_replica_changes := some changes }

/-- Rust `ChangeAliasesOperation`: an ordered batch of alias actions, applied
atomically by the applier. -/
structure ChangeAliasesOperation where
  actions : List AliasOperations
  deriving DecidableEq, Repr

/-- Rust `DeleteCollectionOperation`: newtype over the collection name. -/
structure DeleteCollectionOperation where
  name : String
  deriving DecidableEq, Repr

/-- Rust `ShardTransferOperations`: Start / Finish / Abort messages of the shard
transfer sub-protocol. -/
inductive ShardTransferOperations where
  | Start (t : ShardTransfer)
  | Finish (t : ShardTransfer)
  | Abort (transfer : ShardTransferKey) (reason : String)
  deriving DecidableEq, Repr

/-- Rust `SetShardReplicaState`: compare-and-set of one replica's state, guarded
by the optional `from_state`. -/
structure SetShardReplicaState where
  collection_name : String
  shard_id : ShardId
  peer_id : PeerId
  state : ReplicaState
  from_state : Option ReplicaState
  deriving DecidableEq, Repr

/-- Rust `CollectionMetaOperations`: the closed set of command variants carried
by the consensus log. -/
inductive CollectionMetaOperations where
  | CreateCollection (op : CreateCollectionOperation)
  | UpdateCollection (op : UpdateCollectionOperation)
  | DeleteCollection (op : DeleteCollectionOperation)
  | ChangeAliases (op : ChangeAliasesOperation)
  | TransferShard (id : CollectionId) (op : ShardTransferOperations)
  | SetShardReplicaState (op : SetShardReplicaState)
  | Nop (token : Nat)
  deriving DecidableEq, Repr

/-- Modelled from the spec: custom HNSW index parameters of an existing
collection (`collection::operations::config::HnswConfig`, external). -/
structure HnswConfig where
  m : Nat
  ef_construct : Nat
  deriving DecidableEq, Repr

/-- Modelled from the spec: the `Into<HnswConfigDiff>` conversion used by
`From<CollectionConfig> for CreateCollection`. -/
def HnswConfig.intoDiff (self : HnswConfig) : HnswConfigDiff :=
  { m := some self.m, ef_construct := some self.ef_construct }

/-- Modelled from the spec: WAL parameters of an existing collection
(`collection::config::WalConfig`, external). -/
structure WalConfig where
  wal_capacity_mb : Nat
  wal_segments_ahead : Nat
  deriving DecidableEq, Repr

/-- Modelled from the spec: the `Into<WalConfigDiff>` conversion used by
`From<CollectionConfig> for CreateCollection`. -/
def WalConfig.intoDiff (self : WalConfig) : WalConfigDiff :=
  { wal_capacity_mb := some self.wal_capacity_mb
    wal_segments_ahead := some self.wal_segments_ahead }

/-- Modelled from the spec: optimizer parameters of an existing collection
(`collection::config::OptimizersConfig`, external). -/
structure OptimizersConfig where
  deleted_threshold : Nat
  max_segment_size : Nat
  deriving DecidableEq, Repr

/-- Modelled from the spec: the `Into<OptimizersConfigDiff>` conversion used
by `From<CollectionConfig> for CreateCollection`. -/
def OptimizersConfig.intoDiff (self : OptimizersConfig) : OptimizersConfigDiff :=
  { deleted_threshold := some self.deleted_threshold
    max_segment_size := some self.max_segment_size }

/-- Modelled from the spec: a nonzero 32-bit count
(`std::num::NonZeroU32`, used for sharding factors). -/
abbrev NonZeroU32 := { n : Nat // 0 < n }

/-- Rust `NonZeroU32::get`. -/
def NonZeroU32.get (self : NonZeroU32) : Nat := self.val

/-- Modelled from the spec: base parameters of an existing collection
(`collection::config::CollectionParams`, external): vectors config plus the
sharding factors (each at least 1) and the payload-on-disk flag. -/
structure CollectionParams where
  vectors : VectorsConfig
  shard_number : NonZeroU32
  replication_factor : NonZeroU32
  write_consistency_factor : NonZeroU32
  on_disk_payload : Bool
  deriving DecidableEq, Repr

/-- Modelled from the spec: full configuration of an existing collection
(`collection::config::CollectionConfig`, external). -/
structure CollectionConfig where
  params : CollectionParams
  hnsw_config : HnswConfig
  optimizer_config : OptimizersConfig
  wal_config : WalConfig
  quantization_config : Option QuantizationConfig
  deriving DecidableEq, Repr

/-- Rust `From<CollectionConfig> for CreateCollection`: use the config of an
existing collection to generate a create-collection operation for a new
collection. -/
def CreateCollection.fromCollectionConfig (value : CollectionConfig) :
    CreateCollection :=
  { vectors := value.params.vectors
    shard_number := some value.params.shard_number.get
    replication_factor := some value.params.replication_factor.get
    write_consistency_factor := some value.params.write_consistency_factor.get
    on_disk_payload := some value.params.on_disk_payload
    hnsw_config := some value.hnsw_config.intoDiff
    wal_config := some value.wal_config.intoDiff
    optimizers_config := some value.optimizer_config.intoDiff
    init_from := none
    quantization_config := value.quantization_config }

/-! Section: spec-modelled applier fragments.

The state-machine applier lives outside the given source file; the following
definitions model, from the spec, exactly the applier behaviour the claims
refer to: the compare-and-set semantics of `SetShardReplicaState` and the
all-or-nothing application of a `ChangeAliasesOperation` batch.
-/

/-- Modelled from the spec: the applier step for a `SetShardReplicaState`
operation, acting on the current state of the targeted replica.  If
`from_state` is present and does not match the current state, the operation
is dismissed: the state is unchanged and no error is raised (the result is
`Except.ok`).  If `from_state` is absent, the write is unconditional. -/
def applySetShardReplicaState (current : ReplicaState)
    (op : SetShardReplicaState) : Except String ReplicaState :=
  match op.from_state with
  | none => Except.ok op.state
  | some required =>
      if current = required then Except.ok op.state else Except.ok current

/-- The alias namespace: a finite map from alias name to collection name,
as an association list. -/
abbrev AliasMap := List (String × String)

/-- Whether an alias name is bound in the namespace. -/
def aliasExists (m : AliasMap) (alias_name : String) : Bool :=
  m.any (fun p => p.1 = alias_name)

/-- Modelled from the spec: the applier step for one individual alias
action.  Create fails with a conflict if the alias already exists; Delete
fails with not-found if it does not; Rename fails with not-found if the old
name is missing and with a conflict if the new name exists. -/
def applyAliasAction (m : AliasMap) : AliasOperations → Except String AliasMap
  | AliasOperations.CreateAlias op =>
      if aliasExists m op.create_alias.alias_name then
        Except.error "alias already exists"
      else
        Except.ok ((op.create_alias.alias_name, op.create_alias.collection_name) :: m)
  | AliasOperations.DeleteAlias op =>
      if aliasExists m op.delete_alias.alias_name then
        Except.ok (m.filter (fun p => p.1 ≠ op.delete_alias.alias_name))
      else
        Except.error "alias not found"
  | AliasOperations.RenameAlias op =>
      if !aliasExists m op.rename_alias.old_alias_name then
        Except.error "alias not found"
      else if aliasExists m op.rename_alias.new_alias_name then
        Except.error "alias already exists"
      else
        Except.ok (m.map (fun p =>
          if p.1 = op.rename_alias.old_alias_name then
            (op.rename_alias.new_alias_name, p.2)
          else p))

/-- Sequential application of the individual actions of a batch, stopping
at the first failure. -/
def applyAliasActions (m : AliasMap) : List AliasOperations → Except String AliasMap
  | [] => Except.ok m
  | a :: rest =>
      match applyAliasAction m a with
      | Except.ok m2 => applyAliasActions m2 rest
      | Except.error e => Except.error e

/-- Modelled from the spec: applying a `ChangeAliasesOperation` batch as one
unit, with no other operation interleaved between the individual actions. -/
def applyChangeAliases (m : AliasMap) (op : ChangeAliasesOperation) :
    Except String AliasMap :=
  applyAliasActions m op.actions

/-- Modelled from the spec: the alias namespace the applier persists after
processing a `ChangeAliasesOperation`: the batch result when every action
succeeded, the untouched original namespace otherwise (all-or-nothing). -/
def persistChangeAliases (m : AliasMap) (op : ChangeAliasesOperation) : AliasMap :=
  match applyChangeAliases m op with
  | Except.ok m2 => m2
  | Except.error _ => m

/-! Section: reachable update operations.

States of an `UpdateCollectionOperation` reachable through its public
constructors and slot operations, for the slot-normalization invariant.
-/

/-- The `UpdateCollectionOperation` values reachable by any sequence of the
constructors `new` / `new_empty` and the slot operations
`set_shard_replica_changes` / `take_shard_replica_changes`. -/
inductive UpdateReachable : UpdateCollectionOperation → Prop where
  | new_empty (collection_name : String) :
      UpdateReachable (UpdateCollectionOperation.new_empty collection_name)
  | new (collection_name : String) (update_collection : UpdateCollection) :
      UpdateReachable (UpdateCollectionOperation.new collection_name update_collection)
  | set (op : UpdateCollectionOperation) (changes : List Change) :
      UpdateReachable op →
      UpdateReachable (op.set_shard_replica_changes changes)
  | take (op : UpdateCollectionOperation) :
      UpdateReachable op →
      UpdateReachable op.take_shard_replica_changes.2

/-! Section: the external representation.

The operations are serialized by derived `Serialize`/`Deserialize`
implementations.  The JSON value space and the derived encoding are modelled
here following the serde semantics declared in the source: structs become
objects with their fields in declaration order under `snake_case` names,
enums are externally tagged (one-entry object keyed by the variant name,
`snake_case` for `CollectionMetaOperations`, verbatim for
`ShardTransferOperations` and `ReplicaState`), tuples become arrays,
`Option` becomes null-or-value, newtype wrappers are transparent, and
`AliasOperations` is `untagged`: its three action shapes are told apart only
by their wrapper field names. -/
inductive Json where
  | null
  | bool (b : Bool)
  | num (n : Nat)
  | str (s : String)
  | arr (elems : List Json)
  | obj (fields : List (String × Json))

/-- Whether a JSON value is null. -/
def Json.isNull : Json → Bool
  | Json.null => true
  | _ => false

/-- Serde `Option` encoding: `None` is null, `Some` is transparent. -/
def encodeOpt (enc : α → Json) : Option α → Json
  | none => Json.null
  | some a => enc a

/-- Decoder for the serde `Option` encoding. -/
def decodeOpt (dec : Json → Option α) (j : Json) : Option (Option α) :=
  if j.isNull then some none else (dec j).map some

/-- Serde sequence encoding: an array of the encoded elements. -/
def encodeList (enc : α → Json) (l : List α) : Json :=
  Json.arr (l.map enc)

/-- Element-wise decoding of an array body. -/
def decodeJsonList (dec : Json → Option α) : List Json → Option (List α)
  | [] => some []
  | j :: rest =>
      match dec j, decodeJsonList dec rest with
      | some x, some xs => some (x :: xs)
      | _, _ => none

/-- Decoder for the serde sequence encoding. -/
def decodeList (dec : Json → Option α) : Json → Option (List α)
  | Json.arr elems => decodeJsonList dec elems
  | _ => none

def decodeNat : Json → Option Nat
  | Json.num n => some n
  | _ => none

def decodeBool : Json → Option Bool
  | Json.bool b => some b
  | _ => none

def decodeString : Json → Option String
  | Json.str s => some s
  | _ => none

def encodeDistance : Distance → Json
  | Distance.Cosine => Json.str "Cosine"
  | Distance.Euclid => Json.str "Euclid"
  | Distance.Dot => Json.str "Dot"

def decodeDistance : Json → Option Distance
  | Json.str "Cosine" => some Distance.Cosine
  | Json.str "Euclid" => some Distance.Euclid
  | Json.str "Dot" => some Distance.Dot
  | _ => none

def encodeReplicaState : ReplicaState → Json
  | ReplicaState.Initializing => Json.str "Initializing"
  | ReplicaState.Active => Json.str "Active"
  | ReplicaState.Dead => Json.str "Dead"
  | ReplicaState.Listener => Json.str "Listener"

def decodeReplicaState : Json → Option ReplicaState
  | Json.str "Initializing" => some ReplicaState.Initializing
  | Json.str "Active" => some ReplicaState.Active
  | Json.str "Dead" => some ReplicaState.Dead
  | Json.str "Listener" => some ReplicaState.Listener
  | _ => none

def encodeVectorsConfig (v : VectorsConfig) : Json :=
  Json.obj [("size", Json.num v.size), ("distance", encodeDistance v.distance)]

def decodeVectorsConfig : Json → Option VectorsConfig
  | Json.obj [("size", Json.num size), ("distance", jd)] =>
      (decodeDistance jd).map fun distance => { size := size, distance := distance }
  | _ => none

def encodeHnswConfigDiff (c : HnswConfigDiff) : Json :=
  Json.obj [("m", encodeOpt Json.num c.m),
            ("ef_construct", encodeOpt Json.num c.ef_construct)]

def decodeHnswConfigDiff : Json → Option HnswConfigDiff
  | Json.obj [("m", j1), ("ef_construct", j2)] => do
      let m ← decodeOpt decodeNat j1
      let ef_construct ← decodeOpt decodeNat j2
      some { m := m, ef_construct := ef_construct }
  | _ => none

def encodeWalConfigDiff (c : WalConfigDiff) : Json :=
  Json.obj [("wal_capacity_mb", encodeOpt Json.num c.wal_capacity_mb),
            ("wal_segments_ahead", encodeOpt Json.num c.wal_segments_ahead)]

def decodeWalConfigDiff : Json → Option WalConfigDiff
  | Json.obj [("wal_capacity_mb", j1), ("wal_segments_ahead", j2)] => do
      let wal_capacity_mb ← decodeOpt decodeNat j1
      let wal_segments_ahead ← decodeOpt decodeNat j2
      some { wal_capacity_mb := wal_capacity_mb
             wal_segments_ahead := wal_segments_ahead }
  | _ => none

def encodeOptimizersConfigDiff (c : OptimizersConfigDiff) : Json :=
  Json.obj [("deleted_threshold", encodeOpt Json.num c.deleted_threshold),
            ("max_segment_size", encodeOpt Json.num c.max_segment_size)]

def decodeOptimizersConfigDiff : Json → Option OptimizersConfigDiff
  | Json.obj [("deleted_threshold", j1), ("max_segment_size", j2)] => do
      let deleted_threshold ← decodeOpt decodeNat j1
      let max_segment_size ← decodeOpt decodeNat j2
      some { deleted_threshold := deleted_threshold
             max_segment_size := max_segment_size }
  | _ => none

def encodeCollectionParamsDiff (c : CollectionParamsDiff) : Json :=
  Json.obj [("replication_factor", encodeOpt Json.num c.replication_factor),
            ("write_consistency_factor", encodeOpt Json.num c.write_consistency_factor)]

def decodeCollectionParamsDiff : Json → Option CollectionParamsDiff
  | Json.obj [("replication_factor", j1), ("write_consistency_factor", j2)] => do
      let replication_factor ← decodeOpt decodeNat j1
      let write_consistency_factor ← decodeOpt decodeNat j2
      some { replication_factor := replication_factor
             write_consistency_factor := write_consistency_factor }
  | _ => none

def encodeQuantizationConfig (c : QuantizationConfig) : Json :=
  Json.obj [("quantization_type", Json.str c.quantization_type),
            ("always_ram", encodeOpt Json.bool c.always_ram)]

def decodeQuantizationConfig : Json → Option QuantizationConfig
  | Json.obj [("quantization_type", Json.str t), ("always_ram", j2)] => do
      let always_ram ← decodeOpt decodeBool j2
      some { quantization_type := t, always_ram := always_ram }
  | _ => none

def encodeInitFrom (i : InitFrom) : Json :=
  Json.obj [("collection", Json.str i.collection)]

def decodeInitFrom : Json → Option InitFrom
  | Json.obj [("collection", Json.str c)] => some { collection := c }
  | _ => none

/-- One `(ShardId, Vec<PeerId>)` placement entry of a distribution proposal:
serde encodes the tuple as a two-element array. -/
def encodeShardPlacement (p : ShardId × List PeerId) : Json :=
  Json.arr [Json.num p.1, encodeList Json.num p.2]

def decodeShardPlacement : Json → Option (ShardId × List PeerId)
  | Json.arr [Json.num shard, jpeers] =>
      (decodeList decodeNat jpeers).map fun peers => (shard, peers)
  | _ => none

def encodeShardDistributionProposal (p : ShardDistributionProposal) : Json :=
  Json.obj [("distribution", encodeList encodeShardPlacement p.distribution)]

def decodeShardDistributionProposal : Json → Option ShardDistributionProposal
  | Json.obj [("distribution", j)] =>
      (decodeList decodeShardPlacement j).map fun d => { distribution := d }
  | _ => none

def encodeCreateCollection (c : CreateCollection) : Json :=
  Json.obj [("vectors", encodeVectorsConfig c.vectors),
            ("shard_number", encodeOpt Json.num c.shard_number),
            ("replication_factor", encodeOpt Json.num c.replication_factor),
            ("write_consistency_factor", encodeOpt Json.num c.write_consistency_factor),
            ("on_disk_payload", encodeOpt Json.bool c.on_disk_payload),
            ("hnsw_config", encodeOpt encodeHnswConfigDiff c.hnsw_config),
            ("wal_config", encodeOpt encodeWalConfigDiff c.wal_config),
            ("optimizers_config", encodeOpt encodeOptimizersConfigDiff c.optimizers_config),
            ("init_from", encodeOpt encodeInitFrom c.init_from),
            ("quantization_config", encodeOpt encodeQuantizationConfig c.quantization_config)]

def decodeCreateCollection : Json → Option CreateCollection
  | Json.obj [("vectors", j0), ("shard_number", j1), ("replication_factor", j2),
      ("write_consistency_factor", j3), ("on_disk_payload", j4),
      ("hnsw_config", j5), ("wal_config", j6), ("optimizers_config", j7),
      ("init_from", j8), ("quantization_config", j9)] => do
      let vectors ← decodeVectorsConfig j0
      let shard_number ← decodeOpt decodeNat j1
      let replication_factor ← decodeOpt decodeNat j2
      let write_consistency_factor ← decodeOpt decodeNat j3
      let on_disk_payload ← decodeOpt decodeBool j4
      let hnsw_config ← decodeOpt decodeHnswConfigDiff j5
      let wal_config ← decodeOpt decodeWalConfigDiff j6
      let optimizers_config ← decodeOpt decodeOptimizersConfigDiff j7
      let init_from ← decodeOpt decodeInitFrom j8
      let quantization_config ← decodeOpt decodeQuantizationConfig j9
      some { vectors := vectors, shard_number := shard_number
             replication_factor := replication_factor
             write_consistency_factor := write_consistency_factor
             on_disk_payload := on_disk_payload, hnsw_config := hnsw_config
             wal_config := wal_config, optimizers_config := optimizers_config
             init_from := init_from, quantization_config := quantization_config }
  | _ => none

def encodeCreateCollectionOperation (op : CreateCollectionOperation) : Json :=
  Json.obj [("collection_name", Json.str op.collection_name),
            ("create_collection", encodeCreateCollection op.create_collection),
            ("distribution", encodeOpt encodeShardDistributionProposal op.distribution)]

def decodeCreateCollectionOperation : Json → Option CreateCollectionOperation
  | Json.obj [("collection_name", Json.str name), ("create_collection", j1),
      ("distribution", j2)] => do
      let create_collection ← decodeCreateCollection j1
      let distribution ← decodeOpt decodeShardDistributionProposal j2
      some { collection_name := name, create_collection := create_collection
             distribution := distribution }
  | _ => none

def encodeChange : Change → Json
  | Change.Remove shard peer =>
      Json.obj [("Remove", Json.arr [Json.num shard, Json.num peer])]

def decodeChange : Json → Option Change
  | Json.obj [("Remove", Json.arr [Json.num shard, Json.num peer])] =>
      some (Change.Remove shard peer)
  | _ => none

def encodeUpdateCollection (c : UpdateCollection) : Json :=
  Json.obj [("optimizers_config", encodeOpt encodeOptimizersConfigDiff c.optimizers_config),
            ("params", encodeOpt encodeCollectionParamsDiff c.params)]

def decodeUpdateCollection : Json → Option UpdateCollection
  | Json.obj [("optimizers_config", j1), ("params", j2)] => do
      let optimizers_config ← decodeOpt decodeOptimizersConfigDiff j1
      let params ← decodeOpt decodeCollectionParamsDiff j2
      some { optimizers_config := optimizers_config, params := params }
  | _ => none

def encodeUpdateCollectionOperation (op : UpdateCollectionOperation) : Json :=
  Json.obj [("collection_name", Json.str op.collection_name),
            ("update_collection", encodeUpdateCollection op.update_collection),
            ("shard_replica_changes", encodeOpt (encodeList encodeChange) op.shard_replica_changes)]

def decodeUpdateCollectionOperation : Json → Option UpdateCollectionOperation
  | Json.obj [("collection_name", Json.str name), ("update_collection", j1),
      ("shard_replica_changes", j2)] => do
      let update_collection ← decodeUpdateCollection j1
      let shard_replica_changes ← decodeOpt (decodeList decodeChange) j2
      some { collection_name := name, update_collection := update_collection
             shard_replica_changes := shard_replica_changes }
  | _ => none

def encodeCreateAliasOperation (op : CreateAliasOperation) : Json :=
  Json.obj [("create_alias",
    Json.obj [("collection_name", Json.str op.create_alias.collection_name),
              ("alias_name", Json.str op.create_alias.alias_name)])]

def decodeCreateAliasOperation : Json → Option CreateAliasOperation
  | Json.obj [("create_alias",
      Json.obj [("collection_name", Json.str c), ("alias_name", Json.str a)])] =>
      some { create_alias := { collection_name := c, alias_name := a } }
  | _ => none

def encodeDeleteAliasOperation (op : DeleteAliasOperation) : Json :=
  Json.obj [("delete_alias",
    Json.obj [("alias_name", Json.str op.delete_alias.alias_name)])]

def decodeDeleteAliasOperation : Json → Option DeleteAliasOperation
  | Json.obj [("delete_alias", Json.obj [("alias_name", Json.str a)])] =>
      some { delete_alias := { alias_name := a } }
  | _ => none

def encodeRenameAliasOperation (op : RenameAliasOperation) : Json :=
  Json.obj [("rename_alias",
    Json.obj [("old_alias_name", Json.str op.rename_alias.old_alias_name),
              ("new_alias_name", Json.str op.rename_alias.new_alias_name)])]

def decodeRenameAliasOperation : Json → Option RenameAliasOperation
  | Json.obj [("rename_alias",
      Json.obj [("old_alias_name", Json.str o), ("new_alias_name", Json.str n)])] =>
      some { rename_alias := { old_alias_name := o, new_alias_name := n } }
  | _ => none

/-- Rust `AliasOperations` is `#[serde(untagged)]`: the encoding is that of the
inner wrapper struct, with no discriminant. -/
def encodeAliasOperations : AliasOperations → Json
  | AliasOperations.CreateAlias op => encodeCreateAliasOperation op
  | AliasOperations.DeleteAlias op => encodeDeleteAliasOperation op
  | AliasOperations.RenameAlias op => encodeRenameAliasOperation op

/-- Untagged decoding: the three action shapes are tried in declaration
order and told apart only by their wrapper field names. -/
def decodeAliasOperations (j : Json) : Option AliasOperations :=
  match decodeCreateAliasOperation j with
  | some op => some (AliasOperations.CreateAlias op)
  | none =>
      match decodeDeleteAliasOperation j with
      | some op => some (AliasOperations.DeleteAlias op)
      | none =>
          match decodeRenameAliasOperation j with
          | some op => some (AliasOperations.RenameAlias op)
          | none => none

def encodeChangeAliasesOperation (op : ChangeAliasesOperation) : Json :=
  Json.obj [("actions", encodeList encodeAliasOperations op.actions)]

def decodeChangeAliasesOperation : Json → Option ChangeAliasesOperation
  | Json.obj [("actions", j)] =>
      (decodeList decodeAliasOperations j).map fun actions => { actions := actions }
  | _ => none

def encodeShardTransfer (t : ShardTransfer) : Json :=
  Json.obj [("shard_id", Json.num t.shard_id), ("from_peer", Json.num t.from_peer),
            ("to_peer", Json.num t.to_peer), ("sync", Json.bool t.sync)]

def decodeShardTransfer : Json → Option ShardTransfer
  | Json.obj [("shard_id", Json.num s), ("from_peer", Json.num f),
      ("to_peer", Json.num t), ("sync", Json.bool sync)] =>
      some { shard_id := s, from_peer := f, to_peer := t, sync := sync }
  | _ => none

def encodeShardTransferKey (k : ShardTransferKey) : Json :=
  Json.obj [("shard_id", Json.num k.shard_id), ("from_peer", Json.num k.from_peer),
            ("to_peer", Json.num k.to_peer)]

def decodeShardTransferKey : Json → Option ShardTransferKey
  | Json.obj [("shard_id", Json.num s), ("from_peer", Json.num f),
      ("to_peer", Json.num t)] =>
      some { shard_id := s, from_peer := f, to_peer := t }
  | _ => none

/-- Rust `ShardTransferOperations` carries no `rename_all` attribute: its variant
tags are the verbatim variant names. -/
def encodeShardTransferOperations : ShardTransferOperations → Json
  | ShardTransferOperations.Start t => Json.obj [("Start", encodeShardTransfer t)]
  | ShardTransferOperations.Finish t => Json.obj [("Finish", encodeShardTransfer t)]
  | ShardTransferOperations.Abort transfer reason =>
      Json.obj [("Abort", Json.obj [("transfer", encodeShardTransferKey transfer),
                                    ("reason", Json.str reason)])]

def decodeShardTransferOperations : Json → Option ShardTransferOperations
  | Json.obj [("Start", j)] =>
      (decodeShardTransfer j).map ShardTransferOperations.Start
  | Json.obj [("Finish", j)] =>
      (decodeShardTransfer j).map ShardTransferOperations.Finish
  | Json.obj [("Abort", Json.obj [("transfer", jk), ("reason", Json.str reason)])] =>
      (decodeShardTransferKey jk).map fun k => ShardTransferOperations.Abort k reason
  | _ => none

def encodeSetShardReplicaState (op : SetShardReplicaState) : Json :=
  Json.obj [("collection_name", Json.str op.collection_name),
            ("shard_id", Json.num op.shard_id),
            ("peer_id", Json.num op.peer_id),
            ("state", encodeReplicaState op.state),
            ("from_state", encodeOpt encodeReplicaState op.from_state)]

def decodeSetShardReplicaState : Json → Option SetShardReplicaState
  | Json.obj [("collection_name", Json.str name), ("shard_id", Json.num shard),
      ("peer_id", Json.num peer), ("state", j1), ("from_state", j2)] => do
      let state ← decodeReplicaState j1
      let from_state ← decodeOpt decodeReplicaState j2
      some { collection_name := name, shard_id := shard, peer_id := peer
             state := state, from_state := from_state }
  | _ => none

/-- Rust `CollectionMetaOperations` is externally tagged with
`rename_all = "snake_case"`; `DeleteCollection` is a newtype variant of a
newtype struct, hence encoded transparently as the collection name. -/
def encodeCollectionMetaOperations : CollectionMetaOperations → Json
  | CollectionMetaOperations.CreateCollection op =>
      Json.obj [("create_collection", encodeCreateCollectionOperation op)]
  | CollectionMetaOperations.UpdateCollection op =>
      Json.obj [("update_collection", encodeUpdateCollectionOperation op)]
  | CollectionMetaOperations.DeleteCollection op =>
      Json.obj [("delete_collection", Json.str op.name)]
  | CollectionMetaOperations.ChangeAliases op =>
      Json.obj [("change_aliases", encodeChangeAliasesOperation op)]
  | CollectionMetaOperations.TransferShard id op =>
      Json.obj [("transfer_shard",
        Json.arr [Json.str id, encodeShardTransferOperations op])]
  | CollectionMetaOperations.SetShardReplicaState op =>
      Json.obj [("set_shard_replica_state", encodeSetShardReplicaState op)]
  | CollectionMetaOperations.Nop token =>
      Json.obj [("nop", Json.obj [("token", Json.num token)])]

def decodeCollectionMetaOperations : Json → Option CollectionMetaOperations
  | Json.obj [("create_collection", j)] =>
      (decodeCreateCollectionOperation j).map CollectionMetaOperations.CreateCollection
  | Json.obj [("update_collection", j)] =>
      (decodeUpdateCollectionOperation j).map CollectionMetaOperations.UpdateCollection
  | Json.obj [("delete_collection", Json.str name)] =>
      some (CollectionMetaOperations.DeleteCollection { name := name })
  | Json.obj [("change_aliases", j)] =>
      (decodeChangeAliasesOperation j).map CollectionMetaOperations.ChangeAliases
  | Json.obj [("transfer_shard", Json.arr [Json.str id, j])] =>
      (decodeShardTransferOperations j).map (CollectionMetaOperations.TransferShard id)
  | Json.obj [("set_shard_replica_state", j)] =>
      (decodeSetShardReplicaState j).map CollectionMetaOperations.SetShardReplicaState
  | Json.obj [("nop", Json.obj [("token", Json.num token)])] =>
      some (CollectionMetaOperations.Nop token)
  | _ => none

/-! Section: concrete example values used by counterexamples and witnesses. -/

/-- A concrete creation parameter set. -/
def exampleCreateCollection : CreateCollection :=
  { vectors := { size := 4, distance := Distance.Cosine }
    shard_number := some 4
    replication_factor := some 2
    write_consistency_factor := none
    on_disk_payload := none
    hnsw_config := none
    wal_config := none
    optimizers_config := none
    init_from := none
    quantization_config := none }

/-- A concrete shard-placement proposal. -/
def proposalA : ShardDistributionProposal := { distribution := [(0, [1])] }

/-- A second, different shard-placement proposal. -/
def proposalB : ShardDistributionProposal := { distribution := [(0, [2])] }

/-- A concrete alias batch whose first action succeeds on the empty
namespace and whose second action fails (deleting an unknown alias). -/
def exampleAliasBatch : ChangeAliasesOperation :=
  { actions :=
      [AliasOperations.CreateAlias
        { create_alias := { collection_name := "docs", alias_name := "docs-alias" } },
       AliasOperations.DeleteAlias
        { delete_alias := { alias_name := "missing-alias" } }] }

/-! Section: round-trip helper lemmas for the external representation. -/

theorem decodeOpt_encodeOpt {α : Type} (enc : α → Json) (dec : Json → Option α)
    (h : ∀ a, dec (enc a) = some a) (hnn : ∀ a, (enc a).isNull = false) :
    ∀ o : Option α, decodeOpt dec (encodeOpt enc o) = some o
  | none => by simp [decodeOpt, encodeOpt, Json.isNull]
  | some a => by simp [decodeOpt, encodeOpt, hnn a, h a]

theorem decodeJsonList_map {α : Type} (enc : α → Json) (dec : Json → Option α)
    (h : ∀ a, dec (enc a) = some a) :
    ∀ l : List α, decodeJsonList dec (l.map enc) = some l
  | [] => rfl
  | a :: rest => by
      simp [decodeJsonList, h a, decodeJsonList_map enc dec h rest]

theorem decodeList_encodeList {α : Type} (enc : α → Json) (dec : Json → Option α)
    (h : ∀ a, dec (enc a) = some a) (l : List α) :
    decodeList dec (encodeList enc l) = some l := by
  simp [decodeList, encodeList, decodeJsonList_map enc dec h l]

theorem decodeNat_num (n : Nat) : decodeNat (Json.num n) = some n := rfl

theorem decodeBool_bool (b : Bool) : decodeBool (Json.bool b) = some b := rfl

theorem decodeDistance_encode (d : Distance) :
    decodeDistance (encodeDistance d) = some d := by
  cases d <;> rfl

theorem decodeReplicaState_encode (s : ReplicaState) :
    decodeReplicaState (encodeReplicaState s) = some s := by
  cases s <;> rfl

theorem decodeOptNat (o : Option Nat) :
    decodeOpt decodeNat (encodeOpt Json.num o) = some o :=
  decodeOpt_encodeOpt _ _ decodeNat_num (fun _ => rfl) o

theorem decodeOptBool (o : Option Bool) :
    decodeOpt decodeBool (encodeOpt Json.bool o) = some o :=
  decodeOpt_encodeOpt _ _ decodeBool_bool (fun _ => rfl) o

theorem decodeOptReplicaState (o : Option ReplicaState) :
    decodeOpt decodeReplicaState (encodeOpt encodeReplicaState o) = some o :=
  decodeOpt_encodeOpt _ _ decodeReplicaState_encode
    (fun s => by cases s <;> rfl) o

theorem decodeVectorsConfig_encode (v : VectorsConfig) :
    decodeVectorsConfig (encodeVectorsConfig v) = some v := by
  cases v with
  | mk size distance =>
      simp [encodeVectorsConfig, decodeVectorsConfig, decodeDistance_encode]

theorem decodeHnswConfigDiff_encode (c : HnswConfigDiff) :
    decodeHnswConfigDiff (encodeHnswConfigDiff c) = some c := by
  cases c with
  | mk m e => simp [encodeHnswConfigDiff, decodeHnswConfigDiff, decodeOptNat]

theorem decodeOptHnswConfigDiff (o : Option HnswConfigDiff) :
    decodeOpt decodeHnswConfigDiff (encodeOpt encodeHnswConfigDiff o) = some o :=
  decodeOpt_encodeOpt _ _ decodeHnswConfigDiff_encode (fun _ => rfl) o

theorem decodeWalConfigDiff_encode (c : WalConfigDiff) :
    decodeWalConfigDiff (encodeWalConfigDiff c) = some c := by
  cases c with
  | mk a b => simp [encodeWalConfigDiff, decodeWalConfigDiff, decodeOptNat]

theorem decodeOptWalConfigDiff (o : Option WalConfigDiff) :
    decodeOpt decodeWalConfigDiff (encodeOpt encodeWalConfigDiff o) = some o :=
  decodeOpt_encodeOpt _ _ decodeWalConfigDiff_encode (fun _ => rfl) o

theorem decodeOptimizersConfigDiff_encode (c : OptimizersConfigDiff) :
    decodeOptimizersConfigDiff (encodeOptimizersConfigDiff c) = some c := by
  cases c with
  | mk a b =>
      simp [encodeOptimizersConfigDiff, decodeOptimizersConfigDiff, decodeOptNat]

theorem decodeOptOptimizersConfigDiff (o : Option OptimizersConfigDiff) :
    decodeOpt decodeOptimizersConfigDiff
      (encodeOpt encodeOptimizersConfigDiff o) = some o :=
  decodeOpt_encodeOpt _ _ decodeOptimizersConfigDiff_encode (fun _ => rfl) o

theorem decodeCollectionParamsDiff_encode (c : CollectionParamsDiff) :
    decodeCollectionParamsDiff (encodeCollectionParamsDiff c) = some c := by
  cases c with
  | mk a b =>
      simp [encodeCollectionParamsDiff, decodeCollectionParamsDiff, decodeOptNat]

theorem decodeOptCollectionParamsDiff (o : Option CollectionParamsDiff) :
    decodeOpt decodeCollectionParamsDiff
      (encodeOpt encodeCollectionParamsDiff o) = some o :=
  decodeOpt_encodeOpt _ _ decodeCollectionParamsDiff_encode (fun _ => rfl) o

theorem decodeQuantizationConfig_encode (c : QuantizationConfig) :
    decodeQuantizationConfig (encodeQuantizationConfig c) = some c := by
  cases c with
  | mk t r => simp [encodeQuantizationConfig, decodeQuantizationConfig, decodeOptBool]

theorem decodeOptQuantizationConfig (o : Option QuantizationConfig) :
    decodeOpt decodeQuantizationConfig
      (encodeOpt encodeQuantizationConfig o) = some o :=
  decodeOpt_encodeOpt _ _ decodeQuantizationConfig_encode (fun _ => rfl) o

theorem decodeInitFrom_encode (i : InitFrom) :
    decodeInitFrom (encodeInitFrom i) = some i := rfl

theorem decodeOptInitFrom (o : Option InitFrom) :
    decodeOpt decodeInitFrom (encodeOpt encodeInitFrom o) = some o :=
  decodeOpt_encodeOpt _ _ decodeInitFrom_encode (fun _ => rfl) o

theorem decodeShardPlacement_encode (p : ShardId × List PeerId) :
    decodeShardPlacement (encodeShardPlacement p) = some p := by
  simp [encodeShardPlacement, decodeShardPlacement,
    decodeList_encodeList Json.num decodeNat decodeNat_num]

theorem decodeShardDistributionProposal_encode (p : ShardDistributionProposal) :
    decodeShardDistributionProposal (encodeShardDistributionProposal p) = some p := by
  simp [encodeShardDistributionProposal, decodeShardDistributionProposal,
    decodeList_encodeList encodeShardPlacement decodeShardPlacement
      decodeShardPlacement_encode]

theorem decodeOptShardDistributionProposal (o : Option ShardDistributionProposal) :
    decodeOpt decodeShardDistributionProposal
      (encodeOpt encodeShardDistributionProposal o) = some o :=
  decodeOpt_encodeOpt _ _ decodeShardDistributionProposal_encode (fun _ => rfl) o

set_option maxHeartbeats 1600000 in
theorem decodeCreateCollection_encode (c : CreateCollection) :
    decodeCreateCollection (encodeCreateCollection c) = some c := by
  simp [encodeCreateCollection, decodeCreateCollection,
    decodeVectorsConfig_encode, decodeOptNat, decodeOptBool,
    decodeOptHnswConfigDiff, decodeOptWalConfigDiff,
    decodeOptOptimizersConfigDiff, decodeOptInitFrom,
    decodeOptQuantizationConfig]

theorem decodeCreateCollectionOperation_encode (op : CreateCollectionOperation) :
    decodeCreateCollectionOperation (encodeCreateCollectionOperation op) = some op := by
  simp [encodeCreateCollectionOperation, decodeCreateCollectionOperation,
    decodeCreateCollection_encode, decodeOptShardDistributionProposal]

theorem decodeChange_encode (c : Change) :
    decodeChange (encodeChange c) = some c := by
  cases c with
  | Remove shard peer => rfl

theorem decodeOptChangeList (o : Option (List Change)) :
    decodeOpt (decodeList decodeChange)
      (encodeOpt (encodeList encodeChange) o) = some o :=
  decodeOpt_encodeOpt _ _
    (decodeList_encodeList encodeChange decodeChange decodeChange_encode)
    (fun _ => rfl) o

theorem decodeUpdateCollection_encode (c : UpdateCollection) :
    decodeUpdateCollection (encodeUpdateCollection c) = some c := by
  cases c with
  | mk o p =>
      simp [encodeUpdateCollection, decodeUpdateCollection,
        decodeOptOptimizersConfigDiff, decodeOptCollectionParamsDiff]

theorem decodeUpdateCollectionOperation_encode (op : UpdateCollectionOperation) :
    decodeUpdateCollectionOperation (encodeUpdateCollectionOperation op) = some op := by
  simp [encodeUpdateCollectionOperation, decodeUpdateCollectionOperation,
    decodeUpdateCollection_encode, decodeOptChangeList]

theorem decodeCreateAliasOperation_encode (op : CreateAliasOperation) :
    decodeCreateAliasOperation (encodeCreateAliasOperation op) = some op := rfl

theorem decodeDeleteAliasOperation_encode (op : DeleteAliasOperation) :
    decodeDeleteAliasOperation (encodeDeleteAliasOperation op) = some op := rfl

theorem decodeRenameAliasOperation_encode (op : RenameAliasOperation) :
    decodeRenameAliasOperation (encodeRenameAliasOperation op) = some op := rfl

theorem decodeAliasOperations_encode (a : AliasOperations) :
    decodeAliasOperations (encodeAliasOperations a) = some a := by
  cases a with
  | CreateAlias op =>
      simp [encodeAliasOperations, decodeAliasOperations,
        decodeCreateAliasOperation_encode]
  | DeleteAlias op =>
      have h1 : decodeCreateAliasOperation (encodeDeleteAliasOperation op) = none := rfl
      simp [encodeAliasOperations, decodeAliasOperations, h1,
        decodeDeleteAliasOperation_encode]
  | RenameAlias op =>
      have h1 : decodeCreateAliasOperation (encodeRenameAliasOperation op) = none := rfl
      have h2 : decodeDeleteAliasOperation (encodeRenameAliasOperation op) = none := rfl
      simp [encodeAliasOperations, decodeAliasOperations, h1, h2,
        decodeRenameAliasOperation_encode]

theorem decodeChangeAliasesOperation_encode (op : ChangeAliasesOperation) :
    decodeChangeAliasesOperation (encodeChangeAliasesOperation op) = some op := by
  simp [encodeChangeAliasesOperation, decodeChangeAliasesOperation,
    decodeList_encodeList encodeAliasOperations decodeAliasOperations
      decodeAliasOperations_encode]

theorem decodeShardTransfer_encode (t : ShardTransfer) :
    decodeShardTransfer (encodeShardTransfer t) = some t := rfl

theorem decodeShardTransferKey_encode (k : ShardTransferKey) :
    decodeShardTransferKey (encodeShardTransferKey k) = some k := rfl

theorem decodeShardTransferOperations_encode (op : ShardTransferOperations) :
    decodeShardTransferOperations (encodeShardTransferOperations op) = some op := by
  cases op with
  | Start t =>
      simp [encodeShardTransferOperations, decodeShardTransferOperations,
        decodeShardTransfer_encode]
  | Finish t =>
      simp [encodeShardTransferOperations, decodeShardTransferOperations,
        decodeShardTransfer_encode]
  | Abort k reason =>
      simp [encodeShardTransferOperations, decodeShardTransferOperations,
        decodeShardTransferKey_encode]

theorem decodeSetShardReplicaState_encode (op : SetShardReplicaState) :
    decodeSetShardReplicaState (encodeSetShardReplicaState op) = some op := by
  simp [encodeSetShardReplicaState, decodeSetShardReplicaState,
    decodeReplicaState_encode, decodeOptReplicaState]

/-! Section: the claims. -/

/-- Claim C1, counterexample: on a `CreateCollectionOperation` whose
distribution slot is already filled (with `proposalA`), a further
`set_distribution proposalB` call is not rejected: it succeeds and silently
replaces the stored proposal by `proposalB`. -/
theorem set_distribution_overwrites_counterexample :
    ((CreateCollectionOperation.new "docs" exampleCreateCollection).set_distribution
        proposalA).is_distribution_set = true ∧
    (((CreateCollectionOperation.new "docs" exampleCreateCollection).set_distribution
        proposalA).set_distribution proposalB).distribution = some proposalB ∧
    proposalB ≠ proposalA := by
  refine ⟨rfl, rfl, ?_⟩
  simp [proposalA, proposalB]

/-- Claim C1 (amended): `set_distribution` unconditionally stores
`Some(distribution)`: it never fails or asserts, and when the slot is
already filled it silently overwrites the stored proposal.  The
"only while the slot is empty" discipline is not enforced by
`CreateCollectionOperation` itself. -/
theorem set_distribution_always_overwrites (op : CreateCollectionOperation)
    (d : ShardDistributionProposal) :
    (op.set_distribution d).distribution = some d ∧
    (op.set_distribution d).is_distribution_set = true :=
  ⟨rfl, rfl⟩

/-- Claim C2: after `set_distribution d`, the first `take_distribution`
returns `some d`; the resulting operation has an empty slot
(`is_distribution_set = false`, stored value `none`), so any subsequent
`take_distribution` with no intervening set returns `none`. -/
theorem take_distribution_consumes_once (op : CreateCollectionOperation)
    (d : ShardDistributionProposal) :
    ((op.set_distribution d).take_distribution).1 = some d ∧
    (((op.set_distribution d).take_distribution).2).take_distribution.1 = none ∧
    (((op.set_distribution d).take_distribution).2).distribution = none ∧
    (((op.set_distribution d).take_distribution).2).is_distribution_set = false :=
  ⟨rfl, rfl, rfl, rfl⟩

/-- Claim C3: `set_shard_replica_changes []` normalizes the slot to the
absent representation: afterwards `have_replica_changes` is `false` and
`take_shard_replica_changes` returns `none`. -/
theorem set_empty_replica_changes_normalizes (op : UpdateCollectionOperation) :
    (op.set_shard_replica_changes []).have_replica_changes = false ∧
    (op.set_shard_replica_changes []).take_shard_replica_changes.1 = none :=
  ⟨rfl, rfl⟩

/-- Claim C4: every `UpdateCollectionOperation` reachable by any sequence of
`new` / `new_empty` / `set_shard_replica_changes` /
`take_shard_replica_changes` never stores `some []` in its
`shard_replica_changes` slot: "absent" and "empty list" never diverge. -/
theorem update_reachable_no_some_empty (op : UpdateCollectionOperation)
    (h : UpdateReachable op) : op.shard_replica_changes ≠ some [] := by
  induction h with
  | new_empty collection_name =>
      simp [UpdateCollectionOperation.new_empty]
  | new collection_name update_collection =>
      simp [UpdateCollectionOperation.new]
  | set op changes hr ih =>
      rcases changes with _ | ⟨c, cs⟩ <;>
        simp [UpdateCollectionOperation.set_shard_replica_changes]
  | take op hr ih =>
      simp [UpdateCollectionOperation.take_shard_replica_changes]

/-- Claim C4, witness: a concretely reachable operation satisfies the
invariant. -/
theorem update_reachable_no_some_empty_witness :
    (UpdateCollectionOperation.new_empty "docs").shard_replica_changes ≠ some [] :=
  update_reachable_no_some_empty _ (UpdateReachable.new_empty "docs")

/-- Claim C5: the applier treats `SetShardReplicaState` as a compare-and-set:
with `from_state = some required` and a current replica state different from
`required`, the operation is dismissed — the state is unchanged and the
result is `ok`, not an error; with `from_state = none` the write of `state`
is unconditional. -/
theorem set_shard_replica_state_cas (current : ReplicaState)
    (op : SetShardReplicaState) :
    (∀ required, op.from_state = some required → current ≠ required →
      applySetShardReplicaState current op = Except.ok current) ∧
    (op.from_state = none →
      applySetShardReplicaState current op = Except.ok op.state) := by
  constructor
  · intro required hf hne
    simp [applySetShardReplicaState, hf, hne]
  · intro hf
    simp [applySetShardReplicaState, hf]

/-- Claim C5, witness: promoting a currently-Dead replica guarded by
`from_state = some Active` is dismissed (stays Dead, no error), and the
unguarded write is unconditional. -/
theorem set_shard_replica_state_cas_witness :
    applySetShardReplicaState ReplicaState.Dead
      { collection_name := "docs", shard_id := 3, peer_id := 2
        state := ReplicaState.Active, from_state := some ReplicaState.Active } =
      Except.ok ReplicaState.Dead ∧
    applySetShardReplicaState ReplicaState.Dead
      { collection_name := "docs", shard_id := 3, peer_id := 2
        state := ReplicaState.Active, from_state := none } =
      Except.ok ReplicaState.Active :=
  ⟨(set_shard_replica_state_cas ReplicaState.Dead _).1 ReplicaState.Active rfl
      (by decide),
   (set_shard_replica_state_cas ReplicaState.Dead _).2 rfl⟩

/-- Claim C6: applying a `ChangeAliasesOperation` batch is all-or-nothing:
whenever any individual alias action fails, the persisted alias namespace is
exactly the original one — no change from the batch survives.  (The batch is
applied by a single sequential applier function, so no other operation is
interleaved between the individual actions.) -/
theorem change_aliases_all_or_nothing (m : AliasMap)
    (op : ChangeAliasesOperation) (e : String)
    (h : applyChangeAliases m op = Except.error e) :
    persistChangeAliases m op = m := by
  simp [persistChangeAliases, h]

/-- Claim C6, witness: a two-action batch whose first action succeeds and
whose second fails persists zero alias-namespace changes. -/
theorem change_aliases_all_or_nothing_witness :
    applyChangeAliases [] exampleAliasBatch = Except.error "alias not found" ∧
    persistChangeAliases [] exampleAliasBatch = [] :=
  ⟨rfl, change_aliases_all_or_nothing [] exampleAliasBatch "alias not found" rfl⟩

/-- Claim C7: encoding any `CollectionMetaOperations` value to the external
representation and decoding it back yields an equal value — in particular
every `AliasOperations` variant survives the untagged encoding, and
collection and alias name strings are preserved exactly. -/
theorem collection_meta_operations_roundtrip (op : CollectionMetaOperations) :
    decodeCollectionMetaOperations (encodeCollectionMetaOperations op) = some op := by
  cases op with
  | CreateCollection op =>
      simp [encodeCollectionMetaOperations, decodeCollectionMetaOperations,
        decodeCreateCollectionOperation_encode]
  | UpdateCollection op =>
      simp [encodeCollectionMetaOperations, decodeCollectionMetaOperations,
        decodeUpdateCollectionOperation_encode]
  | DeleteCollection op =>
      simp [encodeCollectionMetaOperations, decodeCollectionMetaOperations]
  | ChangeAliases op =>
      simp [encodeCollectionMetaOperations, decodeCollectionMetaOperations,
        decodeChangeAliasesOperation_encode]
  | TransferShard id op =>
      simp [encodeCollectionMetaOperations, decodeCollectionMetaOperations,
        decodeShardTransferOperations_encode]
  | SetShardReplicaState op =>
      simp [encodeCollectionMetaOperations, decodeCollectionMetaOperations,
        decodeSetShardReplicaState_encode]
  | Nop token =>
      simp [encodeCollectionMetaOperations, decodeCollectionMetaOperations]

/-- Claim C8: `CreateCollectionOperation::new` constructs an operation whose
distribution slot is empty: `is_distribution_set` is `false` and
`take_distribution` returns `none`. -/
theorem new_create_collection_slot_empty (collection_name : String)
    (create_collection : CreateCollection) :
    (CreateCollectionOperation.new collection_name create_collection).is_distribution_set
      = false ∧
    (CreateCollectionOperation.new collection_name create_collection).take_distribution.1
      = none :=
  ⟨rfl, rfl⟩

/-- Claim C9: the `From<CollectionConfig>` conversion always sets
`init_from = none`, wraps `shard_number`, `replication_factor`,
`write_consistency_factor`, `on_disk_payload`, `hnsw_config`, `wal_config`
and `optimizers_config` in `some` of the corresponding config values, and
copies `quantization_config` as-is. -/
theorem create_collection_from_config_fields (value : CollectionConfig) :
    (CreateCollection.fromCollectionConfig value).init_from = none ∧
    (CreateCollection.fromCollectionConfig value).vectors = value.params.vectors ∧
    (CreateCollection.fromCollectionConfig value).shard_number
      = some value.params.shard_number.get ∧
    (CreateCollection.fromCollectionConfig value).replication_factor
      = some value.params.replication_factor.get ∧
    (CreateCollection.fromCollectionConfig value).write_consistency_factor
      = some value.params.write_consistency_factor.get ∧
    (CreateCollection.fromCollectionConfig value).on_disk_payload
      = some value.params.on_disk_payload ∧
    (CreateCollection.fromCollectionConfig value).hnsw_config
      = some value.hnsw_config.intoDiff ∧
    (CreateCollection.fromCollectionConfig value).wal_config
      = some value.wal_config.intoDiff ∧
    (CreateCollection.fromCollectionConfig value).optimizers_config
      = some value.optimizer_config.intoDiff ∧
    (CreateCollection.fromCollectionConfig value).quantization_config
      = value.quantization_config :=
  ⟨rfl, rfl, rfl, rfl, rfl, rfl, rfl, rfl, rfl, rfl⟩

/-- Claim C10: the deferred-slot mutators modify only their own slot:
`set_distribution` and `take_distribution` leave `collection_name` and
`create_collection` unchanged, and `set_shard_replica_changes` and
`take_shard_replica_changes` leave `collection_name` and
`update_collection` unchanged. -/
theorem slot_mutators_frame (cop : CreateCollectionOperation)
    (d : ShardDistributionProposal) (uop : UpdateCollectionOperation)
    (changes : List Change) :
    (cop.set_distribution d).collection_name = cop.collection_name ∧
    (cop.set_distribution d).create_collection = cop.create_collection ∧
    cop.take_distribution.2.collection_name = cop.collection_name ∧
    cop.take_distribution.2.create_collection = cop.create_collection ∧
    (uop.set_shard_replica_changes changes).collection_name = uop.collection_name ∧
    (uop.set_shard_replica_changes changes).update_collection = uop.update_collection ∧
    uop.take_shard_replica_changes.2.collection_name = uop.collection_name ∧
    uop.take_shard_replica_changes.2.update_collection = uop.update_collection := by
  rcases changes with _ | ⟨c, cs⟩ <;>
    exact ⟨rfl, rfl, rfl, rfl, rfl, rfl, rfl, rfl⟩

end QdrantMeta
